import Mathlib

/-!
Gamelift fleet resource: polling, failure diagnostics and attribute glue.

A shallow embedding of `aws/resource_aws_gamelift_fleet.go`.

* Go pointers (`*string`, `*int64`) are `Option` values; dereferencing `none`
  is a nil-pointer panic.
* A Go call that may panic or recurse without bound returns a `Run`: `done v`
  when the call returns `v`, `panic` on a run-time panic, `diverge` when the
  recursion budget of the model is used up.
* Remote calls are fields of `GameLift`; every call made is recorded in the
  trace returned next to the result.
-/

namespace GameliftFleet

/-! ## Go run-time outcomes -/

/-- Outcome of running a Go call in the model. -/
inductive Run (α : Type) where
  /-- the call returned this value -/
  | done (a : α)
  /-- the call panicked (nil dereference, failed type assertion) -/
  | panic
  /-- the call was still running when the recursion budget ran out -/
  | diverge
deriving DecidableEq, Repr

/-! ## SDK data types (package `gamelift`) -/

/-- Fleet event record, `gamelift.Event`; every field is a pointer in Go. -/
structure Event where
  EventCode : Option String
  EventId : Option String
  EventTime : Option Int
  Message : Option String
  PreSignedLogUrl : Option String
  ResourceId : Option String
deriving DecidableEq, Repr

/-- Go `error` values that occur in the resource code. -/
inductive Error where
  /-- an error returned by a remote SDK call: error code and message -/
  | remote (code : String) (message : String)
  /-- the error `fmt.Errorf("Expected exactly 1 Gamelift fleet, found %d under %q", n, id)` -/
  | expectedOneFleet (found : Nat) (id : String)
  /-- the error `fmt.Errorf("%s Recent events: %q", err, events)` with a non-nil `err` -/
  | recentEvents (err : Error) (events : List Event)
  /-- the error `fmt.Errorf("%s Recent events: %q", err, events)` with a nil `err` -/
  | recentEventsNil (events : List Event)
  /-- the wait helper saw a status that is neither pending nor target -/
  | unexpectedState (state : String) (target : List String)
  /-- the wait helper reached its deadline -/
  | timeout (target : List String)
  /-- the wait helper got a nil result more often in a row than it allows -/
  | notFound (retries : Nat)
deriving DecidableEq, Repr

/-- Request of `DescribeFleetEvents`; the code sets only these two fields. -/
structure DescribeFleetEventsInput where
  FleetId : Option String
  NextToken : Option String
deriving DecidableEq, Repr

/-- Response of `DescribeFleetEvents`. -/
structure DescribeFleetEventsOutput where
  Events : List Event
  NextToken : Option String
deriving DecidableEq, Repr

/-- The remote `DescribeFleetEvents` call: the answer to a request. -/
abbrev DescribeFleetEventsApi :=
  DescribeFleetEventsInput → Except Error DescribeFleetEventsOutput

/-! ## Failure diagnostics (lines 469-526) -/

/-- The `failureCodes` slice of `isGameliftEventFailure`. -/
def failureCodes : List String :=
  [ "FLEET_STATE_ERROR",
    "FLEET_INITIALIZATION_FAILED",
    "FLEET_BINARY_DOWNLOAD_FAILED",
    "FLEET_VALIDATION_LAUNCH_PATH_NOT_FOUND",
    "FLEET_VALIDATION_EXECUTABLE_RUNTIME_FAILURE",
    "FLEET_VALIDATION_TIMED_OUT",
    "FLEET_ACTIVATION_FAILED",
    "FLEET_ACTIVATION_FAILED_NO_INSTANCES",
    "SERVER_PROCESS_INVALID_PATH",
    "SERVER_PROCESS_SDK_INITIALIZATION_TIMEOUT",
    "SERVER_PROCESS_PROCESS_READY_TIMEOUT",
    "SERVER_PROCESS_CRASHED",
    "SERVER_PROCESS_TERMINATED_UNHEALTHY",
    "SERVER_PROCESS_FORCE_TERMINATED",
    "SERVER_PROCESS_PROCESS_EXIT_TIMEOUT",
    "GAME_SESSION_ACTIVATION_TIMEOUT",
    "FLEET_VPC_PEERING_FAILED" ]

/-- The `for _, fc := range failureCodes` loop of `isGameliftEventFailure`:
each round dereferences `event.EventCode` and compares it with `fc`. -/
def isGameliftEventFailure.loop (event : Event) : List String → Run Bool
  | [] => .done false
  | fc :: rest =>
    match event.EventCode with
    | none => .panic
    | some code => if code = fc then .done true else isGameliftEventFailure.loop event rest

/-- Function `isGameliftEventFailure` (lines 500-526). -/
def isGameliftEventFailure (event : Event) : Run Bool :=
  isGameliftEventFailure.loop event failureCodes

/-- The `for _, e := range eOut.Events` loop of `_getGameliftFleetFailures`
(lines 484-488), run on the copy of the slice header `events` that the callee
owns: the value returned here is the local slice of the callee after the loop. -/
def appendFailures : List Event → List Event → Run (List Event)
  | [], events => .done events
  | e :: es, events =>
    match isGameliftEventFailure e with
    | .done true => appendFailures es (events ++ [e])
    | .done false => appendFailures es events
    | .panic => .panic
    | .diverge => .diverge

/-- Function `_getGameliftFleetFailures` (lines 475-498). The first component is the
list of `DescribeFleetEvents` requests issued, in order; the second is the
returned `error` (`none` for `nil`). `events` is a slice passed by value, so
what the loop appends stays local to this call. The recursive call of line 491
receives the `nextToken` parameter of this very call. The leading `Nat` bounds the
recursion depth. -/
def _getGameliftFleetFailures (conn : DescribeFleetEventsApi) (id : String) :
    Nat → Option String → List Event → List DescribeFleetEventsInput × Run (Option Error)
  | 0, _, _ => ([], .diverge)
  | fuel + 1, nextToken, events =>
    let input : DescribeFleetEventsInput := { FleetId := some id, NextToken := nextToken }
    match conn input with
    | .error err => ([input], .done (some err))
    | .ok eOut =>
      match appendFailures eOut.Events events with
      | .panic => ([input], .panic)
      | .diverge => ([input], .diverge)
      | .done events1 =>
        if eOut.NextToken.isSome then
          let r := _getGameliftFleetFailures conn id fuel nextToken events1
          match r.2 with
          | .done (some err) => (input :: r.1, .done (some err))
          | .done none => (input :: r.1, .done none)
          | .panic => (input :: r.1, .panic)
          | .diverge => (input :: r.1, .diverge)
        else ([input], .done none)

/-- Function `getGameliftFleetFailures` (lines 469-473): `events` is declared nil,
handed by value to `_getGameliftFleetFailures`, and returned as it is. -/
def getGameliftFleetFailures (conn : DescribeFleetEventsApi) (id : String) (fuel : Nat) :
    List DescribeFleetEventsInput × Run (List Event × Option Error) :=
  let events : List Event := []
  let r := _getGameliftFleetFailures conn id fuel none events
  match r.2 with
  | .done err => (r.1, .done (events, err))
  | .panic => (r.1, .panic)
  | .diverge => (r.1, .diverge)

/-- Specification of the diagnostics output (spec 4.2 and 8): the events of
all pages, in page order and in the order within each page, whose code is on
the allow-list. -/
def failuresOfPages (pages : List (List Event)) : List Event :=
  pages.flatten.filter (fun e => decide (isGameliftEventFailure e = .done true))

/-- An event service holding a fixed log of pages. The request without token
gets page 0; page `k` carries the token `toString (k + 1)` while a further page
exists and none after the last page; a request with token `toString k` gets
page `k`; any other token is rejected. -/
def pagedLog (pages : List (List Event)) : DescribeFleetEventsApi := fun input =>
  let idx : Option Nat :=
    match input.NextToken with
    | none => some 0
    | some t => (List.range pages.length).find? (fun i => toString i == t)
  match idx with
  | none => .error (.remote "InvalidRequestException" "unknown token")
  | some k =>
    .ok { Events := pages.getD k [],
          NextToken := if k + 1 < pages.length then some (toString (k + 1)) else none }

/-- An event with only its code set. -/
def eventWithCode (code : String) : Event :=
  { EventCode := some code, EventId := none, EventTime := none, Message := none,
    PreSignedLogUrl := none, ResourceId := none }

/-! ## Fleet records and the remote service -/

/-- SDK record `gamelift.ResourceCreationLimitPolicy`. -/
structure ResourceCreationLimitPolicy where
  NewGameSessionsPerCreator : Option Int
  PolicyPeriodInMinutes : Option Int
deriving DecidableEq, Repr

/-- SDK record `gamelift.FleetAttributes`, with the fields the code reads. -/
structure FleetAttributes where
  BuildId : Option String
  Description : Option String
  FleetArn : Option String
  FleetId : Option String
  LogPaths : List (Option String)
  MetricGroups : List (Option String)
  Name : Option String
  NewGameSessionProtectionPolicy : Option String
  OperatingSystem : Option String
  ResourceCreationLimitPolicy : Option ResourceCreationLimitPolicy
  ServerLaunchParameters : Option String
  ServerLaunchPath : Option String
  Status : Option String
deriving DecidableEq, Repr

/-- Fleet status constants of the SDK. -/
def FleetStatusNew : String := "NEW"
/-- Fleet status constant of the SDK. -/
def FleetStatusDownloading : String := "DOWNLOADING"
/-- Fleet status constant of the SDK. -/
def FleetStatusValidating : String := "VALIDATING"
/-- Fleet status constant of the SDK. -/
def FleetStatusBuilding : String := "BUILDING"
/-- Fleet status constant of the SDK. -/
def FleetStatusActivating : String := "ACTIVATING"
/-- Fleet status constant of the SDK. -/
def FleetStatusActive : String := "ACTIVE"
/-- Fleet status constant of the SDK. -/
def FleetStatusDeleting : String := "DELETING"
/-- Fleet status constant of the SDK. -/
def FleetStatusError : String := "ERROR"
/-- Fleet status constant of the SDK. -/
def FleetStatusTerminated : String := "TERMINATED"
/-- Protection policy constant of the SDK, the schema default. -/
def ProtectionPolicyNoProtection : String := "NoProtection"

/-- SDK record `gamelift.IpPermission`; every field is a pointer in Go. -/
structure IpPermission where
  FromPort : Option Int
  IpRange : Option String
  Protocol : Option String
  ToPort : Option Int
deriving DecidableEq, Repr

/-- SDK record `gamelift.ServerProcess`; every field is a pointer in Go. -/
structure ServerProcess where
  ConcurrentExecutions : Option Int
  LaunchPath : Option String
  Parameters : Option String
deriving DecidableEq, Repr

/-- SDK record `gamelift.RuntimeConfiguration`; `ServerProcesses` is `none`
while the slice is nil. -/
structure RuntimeConfiguration where
  GameSessionActivationTimeoutSeconds : Option Int
  MaxConcurrentGameSessionActivations : Option Int
  ServerProcesses : Option (List (Option ServerProcess))
deriving DecidableEq, Repr

/-- Request of `CreateFleet`, with the fields the code sets; a field is `none`
while it is nil. -/
structure CreateFleetInput where
  BuildId : Option String
  EC2InstanceType : Option String
  Name : Option String
  Description : Option String
  EC2InboundPermissions : Option (List (Option IpPermission))
  LogPaths : Option (List (Option String))
  MetricGroups : Option (List (Option String))
  NewGameSessionProtectionPolicy : Option String
  PeerVpcAwsAccountId : Option String
  PeerVpcId : Option String
  ResourceCreationLimitPolicy : Option ResourceCreationLimitPolicy
  RuntimeConfiguration : Option RuntimeConfiguration
  ServerLaunchParameters : Option String
  ServerLaunchPath : Option String
deriving DecidableEq, Repr

/-- Request of `DescribeFleetAttributes`; the code sets only `FleetIds`. -/
structure DescribeFleetAttributesInput where
  FleetIds : List (Option String)
deriving DecidableEq, Repr

/-- Response of `CreateFleet`: `FleetAttributes` is a pointer. -/
structure CreateFleetOutput where
  FleetAttributes : Option FleetAttributes
deriving DecidableEq, Repr

/-- Request of `DeleteFleet`. -/
structure DeleteFleetInput where
  FleetId : Option String
deriving DecidableEq, Repr

/-- Request of `UpdateFleetAttributes`, with the fields the code sets. -/
structure UpdateFleetAttributesInput where
  Description : Option String
  FleetId : Option String
  MetricGroups : List (Option String)
  Name : Option String
  NewGameSessionProtectionPolicy : Option String
  ResourceCreationLimitPolicy : Option ResourceCreationLimitPolicy
deriving DecidableEq, Repr

/-- The remote service as seen through `conn`. `DescribeFleetAttributes k req`
is the answer to the `k`-th describe call of the running operation (counted
from 0), since the fleet changes while it is polled. -/
structure GameLift where
  CreateFleet : CreateFleetInput → Except Error CreateFleetOutput
  DeleteFleet : DeleteFleetInput → Option Error
  DescribeFleetAttributes : Nat → DescribeFleetAttributesInput → Except Error (List FleetAttributes)
  DescribeFleetEvents : DescribeFleetEventsApi
  UpdateFleetAttributes : UpdateFleetAttributesInput → Option Error

/-! ## Dynamic values and the resource state -/

/-- Go `interface{}` values that flow through the attribute bag. -/
inductive GoValue where
  /-- the nil interface -/
  | nil
  /-- a `string` -/
  | string (s : String)
  /-- an `int` -/
  | int (n : Int)
  /-- an `int64` -/
  | int64 (n : Int)
  /-- a `*string` -/
  | stringPtr (p : Option String)
  /-- a `[]interface{}` -/
  | list (l : List GoValue)
  /-- a `*schema.Set` -/
  | set (l : List GoValue)
  /-- a `map[string]interface{}` -/
  | map (m : List (String × GoValue))
deriving Repr

/-- The type assertion `v.(string)`. -/
def GoValue.assertString : GoValue → Run String
  | .string s => .done s
  | _ => .panic

/-- The type assertion `v.(int)`. -/
def GoValue.assertInt : GoValue → Run Int
  | .int n => .done n
  | _ => .panic

/-- The type assertion `v.([]interface{})`. -/
def GoValue.assertList : GoValue → Run (List GoValue)
  | .list l => .done l
  | _ => .panic

/-- The type assertion `v.(map[string]interface{})`. -/
def GoValue.assertMap : GoValue → Run (List (String × GoValue))
  | .map m => .done m
  | _ => .panic

/-- Value types of `schema.Schema`. -/
inductive ValueType where
  | TypeString
  | TypeInt
  | TypeList
  | TypeSet
deriving DecidableEq, Repr

/-- One level of a `schema.Schema` entry: its type and flags. -/
structure SchemaEntry where
  type : ValueType
  Required : Bool := false
  Optional : Bool := false
  Computed : Bool := false
  Default : Option String := none
  MaxItems : Option Nat := none
  /-- element type of a list or set of primitives (`Elem: &schema.Schema`) -/
  ElemType : Option ValueType := none
  /-- field names and types of a nested block (`Elem: &schema.Resource`) -/
  ElemFields : List (String × ValueType) := []
deriving DecidableEq, Repr

/-- The top-level `Schema` map of `resourceAwsGameliftFleet` (lines 23-160),
in source order. The fields of the block nested in `runtime_configuration`
under `server_process` are listed in `serverProcessFields`. -/
def fleetSchema : List (String × SchemaEntry) :=
  [ ("arn", { type := .TypeString, Computed := true }),
    ("build_id", { type := .TypeString, Required := true }),
    ("ec2_instance_type", { type := .TypeString, Required := true }),
    ("name", { type := .TypeString, Required := true }),
    ("description", { type := .TypeString, Optional := true }),
    ("ec2_inbound_permission",
      { type := .TypeList, Optional := true,
        ElemFields := [("from_port", .TypeInt), ("ip_range", .TypeString),
                       ("protocol", .TypeString), ("to_port", .TypeInt)] }),
    ("log_paths", { type := .TypeSet, Optional := true, ElemType := some .TypeString }),
    ("metric_groups",
      { type := .TypeSet, Optional := true, Computed := true, ElemType := some .TypeString }),
    ("new_game_session_protection_policy",
      { type := .TypeString, Optional := true, Default := some ProtectionPolicyNoProtection }),
    ("operating_system", { type := .TypeString, Computed := true }),
    ("peer_vpc_aws_account_id", { type := .TypeString, Optional := true }),
    ("peer_vpc_id", { type := .TypeString, Optional := true }),
    ("resource_creation_limit_policy",
      { type := .TypeList, MaxItems := some 1, Optional := true,
        ElemFields := [("new_game_sessions_per_creator", .TypeInt),
                       ("policy_period_in_minutes", .TypeInt)] }),
    ("runtime_configuration",
      { type := .TypeList, MaxItems := some 1, Optional := true,
        ElemFields := [("game_session_activation_timeout_seconds", .TypeInt),
                       ("max_concurrent_game_session_activations", .TypeInt),
                       ("server_process", .TypeList)] }),
    ("server_launch_parameters", { type := .TypeString, Optional := true }),
    ("server_launch_path", { type := .TypeString, Optional := true }) ]

/-- Fields of the `server_process` block (lines 131-144). -/
def serverProcessFields : List (String × ValueType) :=
  [("concurrent_executions", .TypeInt), ("launch_path", .TypeString), ("parameters", .TypeString)]

/-- The attribute keys the schema declares. -/
def schemaKeys : List String := fleetSchema.map Prod.fst

/-- The resource state `*schema.ResourceData`: the ID and the attribute bag. -/
structure ResourceData where
  id : String
  attrs : List (String × GoValue)

/-- Method `d.Id()`. -/
def ResourceData.Id (d : ResourceData) : String := d.id

/-- Method `d.SetId(v)`. -/
def ResourceData.SetId (d : ResourceData) (v : String) : ResourceData := { d with id := v }

/-- The zero value that the accessor returns for a declared key without a
stored value. -/
def zeroValue (e : SchemaEntry) : GoValue :=
  match e.type with
  | .TypeString => .string ""
  | .TypeInt => .int 0
  | .TypeList => .list []
  | .TypeSet => .set []

/-- Modelled from the spec: the get accessor of the declarative-configuration
layer (method `Get` of `schema.ResourceData`), whose code is not among the
sources. The spec lists the accessors as external inputs and gives no contract
for them; the model takes the contract of the library: a declared key yields
its stored value, or the zero value of its declared type, and a key the schema
does not declare yields the nil interface. -/
def ResourceData.Get (d : ResourceData) (key : String) : GoValue :=
  match fleetSchema.lookup key with
  | none => .nil
  | some e =>
    match d.attrs.lookup key with
    | some v => v
    | none => zeroValue e

/-- Whether a dynamic value is the zero value of its type. -/
def GoValue.isZero : GoValue → Bool
  | .nil => true
  | .string s => s == ""
  | .int n => n == 0
  | .int64 n => n == 0
  | .list l => l.isEmpty
  | .set l => l.isEmpty
  | _ => false

/-- Modelled from the spec: the comma-ok get accessor of the
declarative-configuration layer (method `GetOk` of `schema.ResourceData`),
whose code is not among the sources. The spec gives no contract for it; the
model takes the contract of the library: the value that `Get` yields, and
whether it is set to something other than the zero value of its type. -/
def ResourceData.GetOk (d : ResourceData) (key : String) : GoValue × Bool :=
  (d.Get key, !(d.Get key).isZero)

/-- Sequencing of two Go calls: the second runs on the value the first
returned; a panic or a run without end stops the sequence. -/
def Run.bind {α β : Type} (r : Run α) (f : α → Run β) : Run β :=
  match r with
  | .done a => f a
  | .panic => .panic
  | .diverge => .diverge

/-- The statement `if v, ok := d.GetOk(key); ok { field = f(v) }`: the value
assigned to the field, or `none` when the branch is not taken. -/
def whenOk {α : Type} (r : GoValue × Bool) (f : GoValue → Run α) : Run (Option α) :=
  if r.2 then (f r.1).bind (fun a => .done (some a)) else .done none

/-- Modelled from the spec: the set accessor of the declarative-configuration
layer (method `Set` of `schema.ResourceData`), whose code is not among the
sources. The spec gives no contract for it; the model takes the contract of the
library. Writing a key the schema does not declare fails and leaves the state
as it was (every caller here drops the returned error); a pointer is stored as
the value it points to, a nil value removes the stored one, and a slice
written to a set attribute is stored as a set. -/
def ResourceData.Set (d : ResourceData) (key : String) (value : GoValue) : ResourceData :=
  match fleetSchema.lookup key with
  | none => d
  | some e =>
    let rest := d.attrs.filter (fun kv => kv.1 != key)
    match value with
    | .nil => { d with attrs := rest }
    | .stringPtr none => { d with attrs := rest }
    | .stringPtr (some s) => { d with attrs := rest ++ [(key, .string s)] }
    | .list l =>
      if e.type = .TypeSet then { d with attrs := rest ++ [(key, .set l)] }
      else { d with attrs := rest ++ [(key, .list l)] }
    | v => { d with attrs := rest ++ [(key, v)] }

/-! ## Waiting for a state -/

/-- First return value of a `Refresh` function (`interface{}`). -/
inductive RefreshResult where
  /-- the nil interface -/
  | nil
  /-- an `int` placeholder, `42` in the code -/
  | int (n : Int)
  /-- the fleet record -/
  | fleet (f : FleetAttributes)
deriving DecidableEq, Repr

/-- The three return values of a `Refresh` function. -/
structure RefreshOut where
  result : RefreshResult
  state : String
  err : Option Error
deriving DecidableEq, Repr

/-- Nanoseconds in `time.Minute`. -/
def Minute : Nat := 60 * 1000000000

/-- The fields of `resource.StateChangeConf` that the code sets, and
`NotFoundChecks`, which it leaves at the zero value. `Refresh k` is the `k`-th
invocation of the refresh closure, counted from 0. -/
structure StateChangeConf where
  Pending : List String
  Target : List String
  Timeout : Nat
  Refresh : Nat → Run RefreshOut
  NotFoundChecks : Nat

/-- Modelled from the spec: the number of nil results in a row that the wait
helper accepts, part of the library helper whose code is not among the
sources. The spec states no bound; the helper takes 20 when the field
`NotFoundChecks` is left at zero. -/
def StateChangeConf.notFoundChecks (conf : StateChangeConf) : Nat :=
  if conf.NotFoundChecks = 0 then 20 else conf.NotFoundChecks

/-- Modelled from the spec: the poll loop of the library "wait for state"
helper, whose code is not among the sources (spec 4.1, 4.3, 7 and 9). Each
round is one poll. A poll error ends the wait with that error. A nil result
("not found") is the target when the target is the absence of the resource
(empty `Target`) and is still pending otherwise. The spec puts no bound on the
pending not-found polls; the helper does: `notfoundTick` counts the nil results
in a row, a record resets it, and the poll that makes it exceed
`notFoundChecks` ends the wait with a not-found error. A status in `Target`
ends the wait with success, a status in `Pending` continues, any other status
ends the wait with a mismatch failure. When the deadline is reached (no poll
is left in `budget`) the wait fails with a timeout and polls no more. The
arguments are the polls left, the number `k` of polls made, and `notfoundTick`.
Returns the number of polls made and the returned error. -/
def StateChangeConf.waitLoop (conf : StateChangeConf) :
    Nat → Nat → Nat → Nat × Run (Option Error)
  | 0, k, _ => (k, .done (some (.timeout conf.Target)))
  | budget + 1, k, notfoundTick =>
    match conf.Refresh k with
    | .panic => (k + 1, .panic)
    | .diverge => (k + 1, .diverge)
    | .done out =>
      match out.err with
      | some err => (k + 1, .done (some err))
      | none =>
        if out.result = .nil then
          if conf.Target = [] then (k + 1, .done none)
          else if notfoundTick + 1 > conf.notFoundChecks then
            (k + 1, .done (some (.notFound (notfoundTick + 1))))
          else conf.waitLoop budget (k + 1) (notfoundTick + 1)
        else if out.state ∈ conf.Target then (k + 1, .done none)
        else if out.state ∈ conf.Pending then conf.waitLoop budget (k + 1) 0
        else (k + 1, .done (some (.unexpectedState out.state conf.Target)))

/-- Modelled from the spec: `WaitForState` of the library helper, whose code
is not among the sources. `clock t` is the number of polls that complete
within a wait of duration `t`; the wait polls until an outcome is reached or
that many polls have been made, starting with no poll made and the not-found
counter at zero. The first return value of the Go method is dropped by both
callers and is left out. -/
def StateChangeConf.WaitForState (conf : StateChangeConf) (clock : Nat → Nat) :
    Nat × Run (Option Error) :=
  conf.waitLoop (clock conf.Timeout) 0 0

/-- The `Refresh` closure of `resourceAwsGameliftFleetCreate` (lines 225-244),
at its `k`-th invocation. -/
def createRefresh (conn : GameLift) (d : ResourceData) (k : Nat) : Run RefreshOut :=
  match conn.DescribeFleetAttributes k { FleetIds := [some d.Id] } with
  | .error err => .done { result := .int 42, state := "", err := some err }
  | .ok attributes =>
    if attributes.length < 1 then
      .done { result := .nil, state := "", err := none }
    else if attributes.length ≠ 1 then
      .done { result := .int 42, state := "",
              err := some (.expectedOneFleet attributes.length d.Id) }
    else
      match attributes.head? with
      | none => .panic
      | some fleet =>
        match fleet.Status with
        | none => .panic
        | some status => .done { result := .fleet fleet, state := status, err := none }

/-- The `Refresh` closure of `resourceAwsGameliftFleetDelete` (lines 338-357),
at its `k`-th invocation. -/
def deleteRefresh (conn : GameLift) (d : ResourceData) (k : Nat) : Run RefreshOut :=
  match conn.DescribeFleetAttributes k { FleetIds := [some d.Id] } with
  | .error err => .done { result := .int 42, state := "", err := some err }
  | .ok attributes =>
    if attributes.length < 1 then
      .done { result := .nil, state := "", err := none }
    else if attributes.length ≠ 1 then
      .done { result := .int 42, state := "",
              err := some (.expectedOneFleet attributes.length d.Id) }
    else
      match attributes.head? with
      | none => .panic
      | some fleet =>
        match fleet.Status with
        | none => .panic
        | some status => .done { result := .fleet fleet, state := status, err := none }

/-- The `stateConf` of `resourceAwsGameliftFleetCreate` (lines 215-245). -/
def createStateConf (conn : GameLift) (d : ResourceData) : StateChangeConf :=
  { Pending := [FleetStatusActivating, FleetStatusBuilding, FleetStatusDownloading,
                FleetStatusNew, FleetStatusValidating],
    Target := [FleetStatusActive],
    Timeout := 15 * Minute,
    Refresh := createRefresh conn d,
    NotFoundChecks := 0 }

/-- The `stateConf` of `resourceAwsGameliftFleetDelete` (lines 329-358). -/
def deleteStateConf (conn : GameLift) (d : ResourceData) : StateChangeConf :=
  { Pending := [FleetStatusActive, FleetStatusDeleting, FleetStatusError,
                FleetStatusTerminated],
    Target := [],
    Timeout := 15 * Minute,
    Refresh := deleteRefresh conn d,
    NotFoundChecks := 0 }

/-! ## Marshalling helpers -/

/-- Modelled from the spec: `flattenStringList`, a helper of the repository
that is not among the sources (field marshalling, spec section 1): every
pointer of the slice is dereferenced. -/
def flattenStringList : List (Option String) → Run (List GoValue)
  | [] => .done []
  | none :: _ => .panic
  | some s :: rest =>
    match flattenStringList rest with
    | .done vs => .done (.string s :: vs)
    | .panic => .panic
    | .diverge => .diverge

/-- Modelled from the spec: `expandStringList`, a helper of the repository
that is not among the sources (field marshalling, spec section 1): every
element is asserted to be a string and a pointer to it is stored. -/
def expandStringList : List GoValue → Run (List (Option String))
  | [] => .done []
  | v :: rest =>
    match v.assertString with
    | .done s =>
      match expandStringList rest with
      | .done ps => .done (some s :: ps)
      | .panic => .panic
      | .diverge => .diverge
    | .panic => .panic
    | .diverge => .diverge

/-- Function `expandGameliftResourceCreationLimitPolicy` (lines 400-415). -/
def expandGameliftResourceCreationLimitPolicy (cfg : List GoValue) :
    Run (Option ResourceCreationLimitPolicy) :=
  match cfg with
  | [] => .done none
  | first :: _ =>
    match first.assertMap with
    | .panic => .panic
    | .diverge => .diverge
    | .done m =>
      let perCreator : Run (Option Int) :=
        match m.lookup "new_game_sessions_per_creator" with
        | none => .done none
        | some v =>
          match v.assertInt with
          | .done n => .done (some n)
          | .panic => .panic
          | .diverge => .diverge
      match perCreator with
      | .panic => .panic
      | .diverge => .diverge
      | .done a =>
        let period : Run (Option Int) :=
          match m.lookup "policy_period_in_minutes" with
          | none => .done none
          | some v =>
            match v.assertInt with
            | .done n => .done (some n)
            | .panic => .panic
            | .diverge => .diverge
        match period with
        | .panic => .panic
        | .diverge => .diverge
        | .done b => .done (some { NewGameSessionsPerCreator := a, PolicyPeriodInMinutes := b })

/-- Function `flattenGameliftResourceCreationLimitPolicy` (lines 417-427). -/
def flattenGameliftResourceCreationLimitPolicy (policy : Option ResourceCreationLimitPolicy) :
    Run (List GoValue) :=
  match policy with
  | none => .done []
  | some p =>
    match p.NewGameSessionsPerCreator with
    | none => .panic
    | some a =>
      match p.PolicyPeriodInMinutes with
      | none => .panic
      | some b =>
        .done [.map [("new_game_sessions_per_creator", .int64 a),
                     ("policy_period_in_minutes", .int64 b)]]

/-- The Go index expression `m[key]` on a `map[string]interface{}`: a key that
is not in the map yields the nil interface. -/
def GoValue.index (m : List (String × GoValue)) (key : String) : GoValue :=
  (m.lookup key).getD .nil

/-- The body of the `for i, rawCfg := range cfgs` loop of
`expandGameliftIpPermissions` (lines 374-380) for one element: the assertion
to a map, then the four fields in source order. The conversion `int64(...)` of
an `int` keeps the value. -/
def expandGameliftIpPermissions.item (rawCfg : GoValue) : Run IpPermission :=
  match rawCfg.assertMap with
  | .panic => .panic
  | .diverge => .diverge
  | .done cfg =>
  match (GoValue.index cfg "from_port").assertInt with
  | .panic => .panic
  | .diverge => .diverge
  | .done fromPort =>
  match (GoValue.index cfg "ip_range").assertString with
  | .panic => .panic
  | .diverge => .diverge
  | .done ipRange =>
  match (GoValue.index cfg "protocol").assertString with
  | .panic => .panic
  | .diverge => .diverge
  | .done protocol =>
  match (GoValue.index cfg "to_port").assertInt with
  | .panic => .panic
  | .diverge => .diverge
  | .done toPort =>
    .done { FromPort := some fromPort, IpRange := some ipRange,
            Protocol := some protocol, ToPort := some toPort }

/-- The `for i, rawCfg := range cfgs` loop of `expandGameliftIpPermissions`
(lines 373-381): element `i` of the result is a pointer to the record built
from element `i` of `cfgs`. -/
def expandGameliftIpPermissions.loop : List GoValue → Run (List (Option IpPermission))
  | [] => .done []
  | rawCfg :: rest =>
    match expandGameliftIpPermissions.item rawCfg with
    | .panic => .panic
    | .diverge => .diverge
    | .done perm =>
      match expandGameliftIpPermissions.loop rest with
      | .panic => .panic
      | .diverge => .diverge
      | .done perms => .done (some perm :: perms)

/-- Function `expandGameliftIpPermissions` (lines 367-383). -/
def expandGameliftIpPermissions (cfgs : List GoValue) : Run (List (Option IpPermission)) :=
  if cfgs.length < 1 then .done []
  else expandGameliftIpPermissions.loop cfgs

/-- Function `flattenGameliftIpPermissions` (lines 385-398): element `i` of the
result is the map built from element `i` of `ipps`; the four pointers are
dereferenced in source order and the two ports are stored as `int64`. -/
def flattenGameliftIpPermissions : List (Option IpPermission) → Run (List GoValue)
  | [] => .done []
  | none :: _ => .panic
  | some ipp :: rest =>
    match ipp.FromPort with
    | none => .panic
    | some fromPort =>
    match ipp.IpRange with
    | none => .panic
    | some ipRange =>
    match ipp.Protocol with
    | none => .panic
    | some protocol =>
    match ipp.ToPort with
    | none => .panic
    | some toPort =>
      match flattenGameliftIpPermissions rest with
      | .panic => .panic
      | .diverge => .diverge
      | .done perms =>
        .done (.map [("from_port", .int64 fromPort), ("ip_range", .string ipRange),
                     ("protocol", .string protocol), ("to_port", .int64 toPort)] :: perms)

/-- The body of the loop of `expandGameliftServerProcesses` (lines 456-464)
for one element. -/
def expandGameliftServerProcesses.item (rawCfg : GoValue) : Run ServerProcess :=
  rawCfg.assertMap.bind fun cfg =>
  (GoValue.index cfg "concurrent_executions").assertInt.bind fun executions =>
  (GoValue.index cfg "launch_path").assertString.bind fun launchPath =>
  match cfg.lookup "parameters" with
  | some v =>
    v.assertString.bind fun parameters =>
    .done { ConcurrentExecutions := some executions, LaunchPath := some launchPath,
            Parameters := some parameters }
  | none =>
    .done { ConcurrentExecutions := some executions, LaunchPath := some launchPath,
            Parameters := none }

/-- The `for i, rawCfg := range cfgs` loop of `expandGameliftServerProcesses`
(lines 455-465). -/
def expandGameliftServerProcesses.loop : List GoValue → Run (List (Option ServerProcess))
  | [] => .done []
  | rawCfg :: rest =>
    (expandGameliftServerProcesses.item rawCfg).bind fun process =>
    (expandGameliftServerProcesses.loop rest).bind fun processes =>
    .done (some process :: processes)

/-- Function `expandGameliftServerProcesses` (lines 449-467). -/
def expandGameliftServerProcesses (cfgs : List GoValue) : Run (List (Option ServerProcess)) :=
  if cfgs.length < 1 then .done []
  else expandGameliftServerProcesses.loop cfgs

/-- The statement `if v, ok := m[key]; ok { field = aws.Int64(int64(v.(int))) }`
on a map: the value assigned, or `none` when the key is not in the map. -/
def int64Field (m : List (String × GoValue)) (key : String) : Run (Option Int) :=
  match m.lookup key with
  | some v => v.assertInt.bind (fun n => .done (some n))
  | none => .done none

/-- Function `expandGameliftRuntimeConfiguration` (lines 429-447); the result
is `none` for the nil pointer. -/
def expandGameliftRuntimeConfiguration (cfg : List GoValue) : Run (Option RuntimeConfiguration) :=
  match cfg with
  | [] => .done none
  | first :: _ =>
    first.assertMap.bind fun m =>
    (int64Field m "game_session_activation_timeout_seconds").bind fun timeout =>
    (int64Field m "max_concurrent_game_session_activations").bind fun activations =>
    (match m.lookup "server_process" with
      | some v =>
        v.assertList.bind fun l =>
        (expandGameliftServerProcesses l).bind fun ps => .done (some ps)
      | none => .done none).bind fun processes =>
    .done (some { GameSessionActivationTimeoutSeconds := timeout,
                  MaxConcurrentGameSessionActivations := activations,
                  ServerProcesses := processes })

/-- The four keys of an inbound-permission configuration (schema lines 48-65). -/
def ipPermissionKeys : List String := ["from_port", "ip_range", "protocol", "to_port"]

/-- The fields of a well-formed inbound-permission configuration: a map whose
keys are among the four schema keys, with an `int` under `from_port` and
`to_port` and a `string` under `ip_range` and `protocol`. Yields `none` for
any other value. The result is (from_port, ip_range, protocol, to_port). -/
def ipPermissionFields : GoValue → Option (Int × String × String × Int)
  | .map m =>
    match m.lookup "from_port", m.lookup "ip_range", m.lookup "protocol",
          m.lookup "to_port" with
    | some (.int a), some (.string r), some (.string p), some (.int b) =>
      if m.all (fun kv => ipPermissionKeys.contains kv.1) then some (a, r, p, b) else none
    | _, _, _, _ => none
  | _ => none

/-- The record that carries the four given fields. -/
def ipPermissionOf (f : Int × String × String × Int) : IpPermission :=
  { FromPort := some f.1, IpRange := some f.2.1, Protocol := some f.2.2.1,
    ToPort := some f.2.2.2 }

/-- Two dynamic scalars hold the same value; an `int` and an `int64` are
compared by value. -/
def GoValue.sameScalar : GoValue → GoValue → Bool
  | .nil, .nil => true
  | .string a, .string b => a == b
  | .int a, .int b => a == b
  | .int a, .int64 b => a == b
  | .int64 a, .int b => a == b
  | .int64 a, .int64 b => a == b
  | _, _ => false

/-- Two maps of scalars are equal as Go maps, integers compared by value:
every key of either map is a key of both, and both hold the same value under
it. Any value that is not a map is unequal. -/
def GoValue.sameMap : GoValue → GoValue → Bool
  | .map m1, .map m2 =>
    (m1.map Prod.fst ++ m2.map Prod.fst).all
      (fun key =>
        match m1.lookup key, m2.lookup key with
        | some a, some b => a.sameScalar b
        | _, _ => false)
  | _, _ => false

/-- The configuration map that `flattenGameliftIpPermissions` builds for the
four given fields. -/
def flatIpPermission (f : Int × String × String × Int) : GoValue :=
  .map [("from_port", .int64 f.1), ("ip_range", .string f.2.1),
        ("protocol", .string f.2.2.1), ("to_port", .int64 f.2.2.2)]

/-- The round trip of a list of configurations: expand, then flatten. -/
def ipPermissionsRoundTrip (cfgs : List GoValue) : Run (List GoValue) :=
  match expandGameliftIpPermissions cfgs with
  | .done perms => flattenGameliftIpPermissions perms
  | .panic => .panic
  | .diverge => .diverge

/-- A configuration as the schema reader hands it over, keys in any order. -/
def sshPermission : GoValue :=
  .map [("to_port", .int 22), ("protocol", .string "TCP"), ("from_port", .int 22),
        ("ip_range", .string "0.0.0.0/0")]

/-- A second configuration, a UDP port range. -/
def gamePermission : GoValue :=
  .map [("from_port", .int 33435), ("ip_range", .string "10.0.0.0/8"),
        ("protocol", .string "UDP"), ("to_port", .int 33535)]

/-! ## Resource operations -/

/-- The `d.Set` calls of `resourceAwsGameliftFleetRead` (lines 284-294), in
source order: the key and the value written (a value may panic while it is
computed). -/
def readWrites (fleet : FleetAttributes) : List (String × Run GoValue) :=
  [ ("build_id", .done (.stringPtr fleet.BuildId)),
    ("description", .done (.stringPtr fleet.Description)),
    ("fleet_arn", .done (.stringPtr fleet.FleetArn)),
    ("log_paths",
      match flattenStringList fleet.LogPaths with
      | .done l => .done (.list l) | .panic => .panic | .diverge => .diverge),
    ("metric_groups",
      match flattenStringList fleet.MetricGroups with
      | .done l => .done (.list l) | .panic => .panic | .diverge => .diverge),
    ("name", .done (.stringPtr fleet.Name)),
    ("new_game_session_protection_policy",
      .done (.stringPtr fleet.NewGameSessionProtectionPolicy)),
    ("operating_system", .done (.stringPtr fleet.OperatingSystem)),
    ("resource_creation_limit_policy",
      match flattenGameliftResourceCreationLimitPolicy fleet.ResourceCreationLimitPolicy with
      | .done l => .done (.list l) | .panic => .panic | .diverge => .diverge),
    ("server_launch_parameters", .done (.stringPtr fleet.ServerLaunchParameters)),
    ("server_launch_path", .done (.stringPtr fleet.ServerLaunchPath)) ]

/-- Runs a sequence of `d.Set` statements; a panic stops the sequence. -/
def applyWrites : List (String × Run GoValue) → ResourceData → ResourceData × Run (Option Error)
  | [], d => (d, .done none)
  | (key, .done v) :: rest, d => applyWrites rest (d.Set key v)
  | (_, .panic) :: _, d => (d, .panic)
  | (_, .diverge) :: _, d => (d, .diverge)

/-- Function `resourceAwsGameliftFleetRead` (lines 262-297); `k` is the number of
describe calls the running operation has made before. Returns the state after
the call and the returned error. -/
def resourceAwsGameliftFleetRead (d : ResourceData) (conn : GameLift) (k : Nat) :
    ResourceData × Run (Option Error) :=
  match conn.DescribeFleetAttributes k { FleetIds := [some d.Id] } with
  | .error err => (d, .done (some err))
  | .ok attributes =>
    if attributes.length < 1 then
      (d.SetId "", .done none)
    else if attributes.length ≠ 1 then
      (d, .done (some (.expectedOneFleet attributes.length d.Id)))
    else
      match attributes.head? with
      | none => (d, .panic)
      | some fleet => applyWrites (readWrites fleet) d

/-- What a run of `resourceAwsGameliftFleetCreate` did: the final state, the
number of `DescribeFleetAttributes` calls, the number of calls of
`getGameliftFleetFailures`, the `DescribeFleetEvents` requests issued, and the
returned error. -/
structure CreateRun where
  d : ResourceData
  describeCalls : Nat
  failureRetrievals : Nat
  eventQueries : List DescribeFleetEventsInput
  result : Run (Option Error)

/-- The request of `resourceAwsGameliftFleetCreate` (lines 167-205): the
three required attributes are read with `d.Get` and asserted to be strings,
then every optional attribute is read with `d.GetOk` and, when set, converted
and assigned, in source order. The sets `log_paths` and `metric_groups` are
asserted to be `[]interface{}` (lines 180 and 183). -/
def createFleetInput (d : ResourceData) : Run CreateFleetInput :=
  (d.Get "build_id").assertString.bind fun buildId =>
  (d.Get "ec2_instance_type").assertString.bind fun instanceType =>
  (d.Get "name").assertString.bind fun name =>
  (whenOk (d.GetOk "description") GoValue.assertString).bind fun description =>
  (whenOk (d.GetOk "ec2_inbound_permission")
    (fun v => v.assertList.bind expandGameliftIpPermissions)).bind fun permissions =>
  (whenOk (d.GetOk "log_paths")
    (fun v => v.assertList.bind expandStringList)).bind fun logPaths =>
  (whenOk (d.GetOk "metric_groups")
    (fun v => v.assertList.bind expandStringList)).bind fun metricGroups =>
  (whenOk (d.GetOk "new_game_session_protection_policy")
    GoValue.assertString).bind fun protection =>
  (whenOk (d.GetOk "peer_vpc_aws_account_id") GoValue.assertString).bind fun peerAccount =>
  (whenOk (d.GetOk "peer_vpc_id") GoValue.assertString).bind fun peerVpc =>
  (whenOk (d.GetOk "resource_creation_limit_policy")
    (fun v => v.assertList.bind expandGameliftResourceCreationLimitPolicy)).bind fun policy =>
  (whenOk (d.GetOk "runtime_configuration")
    (fun v => v.assertList.bind expandGameliftRuntimeConfiguration)).bind fun runtime =>
  (whenOk (d.GetOk "server_launch_parameters") GoValue.assertString).bind fun parameters =>
  (whenOk (d.GetOk "server_launch_path") GoValue.assertString).bind fun launchPath =>
  .done { BuildId := some buildId,
          EC2InstanceType := some instanceType,
          Name := some name,
          Description := description,
          EC2InboundPermissions := permissions,
          LogPaths := logPaths,
          MetricGroups := metricGroups,
          NewGameSessionProtectionPolicy := protection,
          PeerVpcAwsAccountId := peerAccount,
          PeerVpcId := peerVpc,
          ResourceCreationLimitPolicy := policy.join,
          RuntimeConfiguration := runtime.join,
          ServerLaunchParameters := parameters,
          ServerLaunchPath := launchPath }

/-- Function `resourceAwsGameliftFleetCreate` (lines 164-260). `clock` is the
clock of the wait and `fuel` bounds the recursion of the failure retrieval. In
the block of line 247 the `:=` of line 248 declares a new `err`, which lines
249-256 use. -/
def resourceAwsGameliftFleetCreate (d : ResourceData) (conn : GameLift) (clock : Nat → Nat)
    (fuel : Nat) : CreateRun :=
  match createFleetInput d with
  | .panic =>
    { d := d, describeCalls := 0, failureRetrievals := 0, eventQueries := [],
      result := .panic }
  | .diverge =>
    { d := d, describeCalls := 0, failureRetrievals := 0, eventQueries := [],
      result := .diverge }
  | .done input =>
  match conn.CreateFleet input with
  | .error err =>
    { d := d, describeCalls := 0, failureRetrievals := 0, eventQueries := [],
      result := .done (some err) }
  | .ok out =>
    match out.FleetAttributes.bind (fun a => a.FleetId) with
    | none =>
      { d := d, describeCalls := 0, failureRetrievals := 0, eventQueries := [],
        result := .panic }
    | some fleetId =>
      let d1 := d.SetId fleetId
      let stateConf := createStateConf conn d1
      let w := stateConf.WaitForState clock
      match w.2 with
      | .panic =>
        { d := d1, describeCalls := w.1, failureRetrievals := 0, eventQueries := [],
          result := .panic }
      | .diverge =>
        { d := d1, describeCalls := w.1, failureRetrievals := 0, eventQueries := [],
          result := .diverge }
      | .done (some _) =>
        let g := getGameliftFleetFailures conn.DescribeFleetEvents d1.Id fuel
        match g.2 with
        | .panic =>
          { d := d1, describeCalls := w.1, failureRetrievals := 1, eventQueries := g.1,
            result := .panic }
        | .diverge =>
          { d := d1, describeCalls := w.1, failureRetrievals := 1, eventQueries := g.1,
            result := .diverge }
        | .done (events, err) =>
          if events.length > 0 then
            { d := d1, describeCalls := w.1, failureRetrievals := 1, eventQueries := g.1,
              result := .done (some (match err with
                                     | some e => .recentEvents e events
                                     | none => .recentEventsNil events)) }
          else
            { d := d1, describeCalls := w.1, failureRetrievals := 1, eventQueries := g.1,
              result := .done err }
      | .done none =>
        let r := resourceAwsGameliftFleetRead d1 conn w.1
        { d := r.1, describeCalls := w.1 + 1, failureRetrievals := 0, eventQueries := [],
          result := r.2 }

/-- The attribute keys read by `resourceAwsGameliftFleetUpdate` (lines 304-309),
in source order. -/
def updateReads : List String :=
  [ "description", "fleet_id", "metric_groups", "name",
    "new_game_session_protection_policy", "resource_creation_limit_policy" ]

/-- The request literal of `resourceAwsGameliftFleetUpdate` (lines 303-310);
the fields are evaluated in source order. -/
def updateFleetAttributesInput (d : ResourceData) : Run UpdateFleetAttributesInput :=
  match (d.Get "description").assertString with
  | .panic => .panic
  | .diverge => .diverge
  | .done description =>
  match (d.Get "fleet_id").assertString with
  | .panic => .panic
  | .diverge => .diverge
  | .done fleetId =>
  match (d.Get "metric_groups").assertList with
  | .panic => .panic
  | .diverge => .diverge
  | .done groups =>
  match expandStringList groups with
  | .panic => .panic
  | .diverge => .diverge
  | .done metricGroups =>
  match (d.Get "name").assertString with
  | .panic => .panic
  | .diverge => .diverge
  | .done name =>
  match (d.Get "new_game_session_protection_policy").assertString with
  | .panic => .panic
  | .diverge => .diverge
  | .done protection =>
  match (d.Get "resource_creation_limit_policy").assertList with
  | .panic => .panic
  | .diverge => .diverge
  | .done cfg =>
  match expandGameliftResourceCreationLimitPolicy cfg with
  | .panic => .panic
  | .diverge => .diverge
  | .done policy =>
    .done { Description := some description,
            FleetId := some fleetId,
            MetricGroups := metricGroups,
            Name := some name,
            NewGameSessionProtectionPolicy := some protection,
            ResourceCreationLimitPolicy := policy }

/-- Function `resourceAwsGameliftFleetUpdate` (lines 299-316). -/
def resourceAwsGameliftFleetUpdate (d : ResourceData) (conn : GameLift) :
    ResourceData × Run (Option Error) :=
  match updateFleetAttributesInput d with
  | .panic => (d, .panic)
  | .diverge => (d, .diverge)
  | .done input =>
    match conn.UpdateFleetAttributes input with
    | some err => (d, .done (some err))
    | none => resourceAwsGameliftFleetRead d conn 0

/-- Function `resourceAwsGameliftFleetDelete` (lines 318-365). Returns the number of
polls made and the returned error. -/
def resourceAwsGameliftFleetDelete (d : ResourceData) (conn : GameLift) (clock : Nat → Nat) :
    Nat × Run (Option Error) :=
  match conn.DeleteFleet { FleetId := some d.Id } with
  | some err => (0, .done (some err))
  | none =>
    let stateConf := deleteStateConf conn d
    let w := stateConf.WaitForState clock
    match w.2 with
    | .panic => (w.1, .panic)
    | .diverge => (w.1, .diverge)
    | .done (some err) => (w.1, .done (some err))
    | .done none => (w.1, .done none)

/-! ## Scenarios -/

/-- A fleet record with the given ID and status and nothing else set. -/
def fleetWithStatus (id status : String) : FleetAttributes :=
  { BuildId := none, Description := none, FleetArn := none, FleetId := some id,
    LogPaths := [], MetricGroups := [], Name := none,
    NewGameSessionProtectionPolicy := none, OperatingSystem := none,
    ResourceCreationLimitPolicy := none, ServerLaunchParameters := none,
    ServerLaunchPath := none, Status := some status }

/-- A describe answer, as the service gives it to one poll. -/
abbrev DescribeAnswer := Except Error (List FleetAttributes)

/-- The describe answer with the one record of fleet `id` in status `status`. -/
def oneFleet (id status : String) : DescribeAnswer := .ok [fleetWithStatus id status]

/-- The describe answers of successive calls: those of `answers` in order,
then those of `later`. -/
def answerSeq (answers : List DescribeAnswer) (later : Nat → DescribeAnswer) : Nat → DescribeAnswer :=
  fun k => if h : k < answers.length then answers.get ⟨k, h⟩ else later (k - answers.length)

/-- A service whose `CreateFleet` returns the fleet `id`, whose `k`-th describe
call is answered by `describe k`, whose event log is served by `events`, and
whose delete and update requests succeed. -/
def service (id : String) (describe : Nat → DescribeAnswer) (events : DescribeFleetEventsApi) :
    GameLift :=
  { CreateFleet := fun _ => .ok { FleetAttributes := some (fleetWithStatus id FleetStatusNew) },
    DeleteFleet := fun _ => none,
    DescribeFleetAttributes := fun k _ => describe k,
    DescribeFleetEvents := events,
    UpdateFleetAttributes := fun _ => none }

/-- An empty resource state. -/
def emptyState : ResourceData := { id := "", attrs := [] }

/-- The resource state handed to Create for the configuration of the
acceptance test: no ID yet, the three required attributes, the launch path,
and the protection policy at its schema default. -/
def plannedState : ResourceData :=
  { id := "",
    attrs := [ ("build_id", .string "build-1"),
               ("ec2_instance_type", .string "t2.micro"),
               ("name", .string "tf_acc_fleet"),
               ("new_game_session_protection_policy", .string "NoProtection"),
               ("server_launch_path", .string "C:\\game\\GomokuServer.exe") ] }

/-- The `k`-th poll returns, without error, a record whose status is pending
and not a target, so that the wait goes on. -/
def StateChangeConf.continues (conf : StateChangeConf) (k : Nat) : Prop :=
  ∃ out, conf.Refresh k = .done out ∧ out.err = none ∧
    out.result ≠ .nil ∧ out.state ∉ conf.Target ∧ out.state ∈ conf.Pending

/-- Whether a dynamic value has the shape of a schema type (top level only). -/
def GoValue.hasType : GoValue → ValueType → Bool
  | .string _, .TypeString => true
  | .int _, .TypeInt => true
  | .list _, .TypeList => true
  | .set _, .TypeSet => true
  | _, _ => false

/-- Whether a resource state conforms to the fleet schema at the top level:
every stored attribute is declared and has the shape of its declared type, and
every required attribute is stored. -/
def ResourceData.conforms (d : ResourceData) : Bool :=
  d.attrs.all (fun kv =>
    match fleetSchema.lookup kv.1 with
    | some e => kv.2.hasType e.type
    | none => false) &&
  fleetSchema.all (fun ke => !ke.2.Required || (d.attrs.lookup ke.1).isSome)

/-- A resource state of a created fleet, as the acceptance test configures it. -/
def configuredState : ResourceData :=
  { id := "fleet-1",
    attrs := [ ("build_id", .string "build-1"),
               ("ec2_instance_type", .string "t2.micro"),
               ("name", .string "tf_acc_fleet"),
               ("description", .string ""),
               ("metric_groups", .set [.string "default"]),
               ("new_game_session_protection_policy", .string "NoProtection"),
               ("server_launch_path", .string "C:\\game\\GomokuServer.exe") ] }

/-- The one request of a retrieval that starts over: fleet ID and no token. -/
def firstQuery (id : String) : DescribeFleetEventsInput :=
  { FleetId := some id, NextToken := none }

/-! ## The wait loop -/

theorem waitLoop_of_continues (conf : StateChangeConf) (b k t : Nat) (h : conf.continues k) :
    conf.waitLoop (b + 1) k t = conf.waitLoop b (k + 1) 0 := by
  obtain ⟨out, hr, he, hn, ht, hp⟩ := h
  rw [StateChangeConf.waitLoop, hr]
  simp [he, hn, ht, hp]

theorem waitLoop_skip (conf : StateChangeConf) (n : Nat) :
    ∀ (b k t : Nat), (∀ j, j < n → conf.continues (k + j)) →
      conf.waitLoop (n + b) k t = conf.waitLoop b (k + n) (if n = 0 then t else 0) := by
  induction n with
  | zero => intro b k t _; simp
  | succ n ih =>
    intro b k t h
    have h0 : conf.continues k := by simpa using h 0 (Nat.succ_pos n)
    have hstep : n + 1 + b = (n + b) + 1 := by omega
    have hrest := ih b (k + 1) 0 (by
      intro j hj
      have := h (j + 1) (by omega)
      have e : k + (j + 1) = k + 1 + j := by omega
      rwa [e] at this)
    rw [hstep, waitLoop_of_continues conf (n + b) k t h0, hrest]
    have e1 : k + 1 + n = k + (n + 1) := by omega
    rw [e1]
    simp

theorem waitLoop_target (conf : StateChangeConf) (b k t : Nat) (out : RefreshOut)
    (hr : conf.Refresh k = .done out) (he : out.err = none) (hn : out.result ≠ .nil)
    (ht : out.state ∈ conf.Target) :
    conf.waitLoop (b + 1) k t = (k + 1, .done none) := by
  rw [StateChangeConf.waitLoop, hr]
  simp [he, hn, ht]

theorem waitLoop_absent (conf : StateChangeConf) (b k t : Nat) (out : RefreshOut)
    (hr : conf.Refresh k = .done out) (he : out.err = none) (hn : out.result = .nil)
    (ht : conf.Target = []) :
    conf.waitLoop (b + 1) k t = (k + 1, .done none) := by
  rw [StateChangeConf.waitLoop, hr]
  simp [he, hn, ht]

theorem createRefresh_one (conn : GameLift) (d : ResourceData) (k : Nat) (f : FleetAttributes)
    (s : String) (h : conn.DescribeFleetAttributes k { FleetIds := [some d.Id] } = .ok [f])
    (hs : f.Status = some s) :
    createRefresh conn d k = .done { result := .fleet f, state := s, err := none } := by
  simp [createRefresh, h, hs]

theorem deleteRefresh_one (conn : GameLift) (d : ResourceData) (k : Nat) (f : FleetAttributes)
    (s : String) (h : conn.DescribeFleetAttributes k { FleetIds := [some d.Id] } = .ok [f])
    (hs : f.Status = some s) :
    deleteRefresh conn d k = .done { result := .fleet f, state := s, err := none } := by
  simp [deleteRefresh, h, hs]

theorem createRefresh_none (conn : GameLift) (d : ResourceData) (k : Nat)
    (h : conn.DescribeFleetAttributes k { FleetIds := [some d.Id] } = .ok []) :
    createRefresh conn d k = .done { result := .nil, state := "", err := none } := by
  simp [createRefresh, h]

theorem deleteRefresh_none (conn : GameLift) (d : ResourceData) (k : Nat)
    (h : conn.DescribeFleetAttributes k { FleetIds := [some d.Id] } = .ok []) :
    deleteRefresh conn d k = .done { result := .nil, state := "", err := none } := by
  simp [deleteRefresh, h]

theorem createRefresh_many (conn : GameLift) (d : ResourceData) (k : Nat)
    (attributes : List FleetAttributes)
    (h : conn.DescribeFleetAttributes k { FleetIds := [some d.Id] } = .ok attributes)
    (hl : 2 ≤ attributes.length) :
    createRefresh conn d k =
      .done { result := .int 42, state := "",
              err := some (.expectedOneFleet attributes.length d.Id) } := by
  have h1 : ¬ attributes.length < 1 := by omega
  have h2 : attributes.length ≠ 1 := by omega
  simp [createRefresh, h, h1, h2]

theorem deleteRefresh_many (conn : GameLift) (d : ResourceData) (k : Nat)
    (attributes : List FleetAttributes)
    (h : conn.DescribeFleetAttributes k { FleetIds := [some d.Id] } = .ok attributes)
    (hl : 2 ≤ attributes.length) :
    deleteRefresh conn d k =
      .done { result := .int 42, state := "",
              err := some (.expectedOneFleet attributes.length d.Id) } := by
  have h1 : ¬ attributes.length < 1 := by omega
  have h2 : attributes.length ≠ 1 := by omega
  simp [deleteRefresh, h, h1, h2]

theorem create_pending_not_target (conn : GameLift) (d : ResourceData) (s : String)
    (h : s ∈ (createStateConf conn d).Pending) :
    s ∉ (createStateConf conn d).Target := by
  simp only [createStateConf, List.mem_cons, List.mem_singleton, List.not_mem_nil, or_false] at h ⊢
  rcases h with h | h | h | h | h <;> subst h <;> decide

theorem create_continues_of_pending (conn : GameLift) (d : ResourceData) (k : Nat)
    (f : FleetAttributes) (s : String)
    (h : conn.DescribeFleetAttributes k { FleetIds := [some d.Id] } = .ok [f])
    (hs : f.Status = some s) (hp : s ∈ (createStateConf conn d).Pending) :
    (createStateConf conn d).continues k := by
  refine ⟨_, createRefresh_one conn d k f s h hs, rfl, by simp, ?_, hp⟩
  exact create_pending_not_target conn d s hp

theorem delete_continues_of_pending (conn : GameLift) (d : ResourceData) (k : Nat)
    (f : FleetAttributes) (s : String)
    (h : conn.DescribeFleetAttributes k { FleetIds := [some d.Id] } = .ok [f])
    (hs : f.Status = some s) (hp : s ∈ (deleteStateConf conn d).Pending) :
    (deleteStateConf conn d).continues k := by
  refine ⟨_, deleteRefresh_one conn d k f s h hs, rfl, by simp, ?_, hp⟩
  simp [deleteStateConf]

/-- C5, as amended: in the refresh function of the create wait and of the
delete wait, a describe response with two or more fleet records yields a fatal
invariant error, with a placeholder result and an empty status (never a status
taken from a record); a response with zero records yields the nil result with
an empty status and no error, which is the "not found" response. -/
theorem refresh_record_count (conn : GameLift) (d : ResourceData) (k : Nat)
    (attributes : List FleetAttributes)
    (h : conn.DescribeFleetAttributes k { FleetIds := [some d.Id] } = .ok attributes) :
    (2 ≤ attributes.length →
      createRefresh conn d k =
        .done { result := .int 42, state := "",
                err := some (.expectedOneFleet attributes.length d.Id) } ∧
      deleteRefresh conn d k =
        .done { result := .int 42, state := "",
                err := some (.expectedOneFleet attributes.length d.Id) }) ∧
    (attributes.length = 0 →
      createRefresh conn d k = .done { result := .nil, state := "", err := none } ∧
      deleteRefresh conn d k = .done { result := .nil, state := "", err := none }) := by
  constructor
  · intro hl
    exact ⟨createRefresh_many conn d k attributes h hl, deleteRefresh_many conn d k attributes h hl⟩
  · intro hl
    have : attributes = [] := List.length_eq_zero.mp hl
    subst this
    exact ⟨createRefresh_none conn d k h, deleteRefresh_none conn d k h⟩

/-- Witness of C5 as amended: two records in statuses ACTIVE and NEW give the
invariant error of both refresh functions. -/
theorem refresh_record_count_witness :
    createRefresh
        (service "fleet-1"
          (fun _ => .ok [fleetWithStatus "fleet-1" "ACTIVE", fleetWithStatus "fleet-1" "NEW"])
          (pagedLog [[]]))
        { id := "fleet-1", attrs := [] } 0 =
      .done { result := .int 42, state := "",
              err := some (.expectedOneFleet 2 "fleet-1") } ∧
    deleteRefresh
        (service "fleet-1"
          (fun _ => .ok [fleetWithStatus "fleet-1" "ACTIVE", fleetWithStatus "fleet-1" "NEW"])
          (pagedLog [[]]))
        { id := "fleet-1", attrs := [] } 0 =
      .done { result := .int 42, state := "",
              err := some (.expectedOneFleet 2 "fleet-1") } :=
  (refresh_record_count
    (service "fleet-1"
      (fun _ => .ok [fleetWithStatus "fleet-1" "ACTIVE", fleetWithStatus "fleet-1" "NEW"])
      (pagedLog [[]]))
    { id := "fleet-1", attrs := [] } 0
    [fleetWithStatus "fleet-1" "ACTIVE", fleetWithStatus "fleet-1" "NEW"] rfl).1 (by decide)

/-- C5 as stated fails: on a describe response with zero records both refresh
functions return without error. -/
theorem refresh_zero_records_no_error :
    createRefresh (service "fleet-1" (fun _ => .ok []) (pagedLog [[]]))
        { id := "fleet-1", attrs := [] } 0 =
      .done { result := .nil, state := "", err := none } ∧
    deleteRefresh (service "fleet-1" (fun _ => .ok []) (pagedLog [[]]))
        { id := "fleet-1", attrs := [] } 0 =
      .done { result := .nil, state := "", err := none } := by
  constructor <;> rfl

/-- C7: on the create path, when the first `n` polls each return one record in
a pending status (NEW, DOWNLOADING, VALIDATING, BUILDING, ACTIVATING), poll
`n + 1` returns one record in status ACTIVE, and `n + 1` polls fit before the
15-minute timeout, the creation wait returns success after exactly `n + 1`
polls, whatever later polls would have returned. -/
theorem create_wait_success_at_first_active (conn : GameLift) (d : ResourceData)
    (clock : Nat → Nat) (n : Nat)
    (hp : ∀ k, k < n → ∃ f s,
      conn.DescribeFleetAttributes k { FleetIds := [some d.Id] } = .ok [f] ∧
      f.Status = some s ∧
      s ∈ [FleetStatusNew, FleetStatusDownloading, FleetStatusValidating,
           FleetStatusBuilding, FleetStatusActivating])
    (ha : ∃ f, conn.DescribeFleetAttributes n { FleetIds := [some d.Id] } = .ok [f] ∧
      f.Status = some FleetStatusActive)
    (ht : n < clock (15 * Minute)) :
    (createStateConf conn d).WaitForState clock = (n + 1, .done none) := by
  obtain ⟨b, hb⟩ : ∃ b, clock (15 * Minute) = n + (b + 1) := ⟨clock (15 * Minute) - n - 1, by omega⟩
  have hcont : ∀ j, j < n → (createStateConf conn d).continues (0 + j) := by
    intro j hj
    obtain ⟨f, s, hq, hs, hmem⟩ := hp j hj
    refine create_continues_of_pending conn d (0 + j) f s (by simpa using hq) hs ?_
    simp only [createStateConf, List.mem_cons, List.mem_singleton, List.not_mem_nil,
      or_false] at hmem ⊢
    tauto
  have hskip := waitLoop_skip (createStateConf conn d) n (b + 1) 0 0 hcont
  obtain ⟨f, hq, hs⟩ := ha
  show (createStateConf conn d).waitLoop (clock (15 * Minute)) 0 0 = _
  rw [hb, hskip]
  have := waitLoop_target (createStateConf conn d) b (0 + n) (if n = 0 then 0 else 0) _
    (createRefresh_one conn d (0 + n) f FleetStatusActive (by simpa using hq) hs) rfl
    (by simp) (by simp [createStateConf])
  simpa using this

/-- Witness of C7: the answers [NEW, BUILDING, ACTIVATING, ACTIVE], followed by
ERROR answers, give success after exactly 4 polls. -/
theorem create_wait_success_at_first_active_witness :
    (createStateConf
        (service "fleet-1"
          (answerSeq [oneFleet "fleet-1" "NEW", oneFleet "fleet-1" "BUILDING",
                      oneFleet "fleet-1" "ACTIVATING", oneFleet "fleet-1" "ACTIVE"]
            (fun _ => oneFleet "fleet-1" "ERROR"))
          (pagedLog [[]]))
        { id := "fleet-1", attrs := [] }).WaitForState (fun _ => 10) = (4, .done none) :=
  create_wait_success_at_first_active
    (service "fleet-1"
      (answerSeq [oneFleet "fleet-1" "NEW", oneFleet "fleet-1" "BUILDING",
                  oneFleet "fleet-1" "ACTIVATING", oneFleet "fleet-1" "ACTIVE"]
        (fun _ => oneFleet "fleet-1" "ERROR"))
      (pagedLog [[]]))
    { id := "fleet-1", attrs := [] } (fun _ => 10) 3
    (by
      intro k hk
      interval_cases k
      · exact ⟨fleetWithStatus "fleet-1" "NEW", "NEW", rfl, rfl, by decide⟩
      · exact ⟨fleetWithStatus "fleet-1" "BUILDING", "BUILDING", rfl, rfl, by decide⟩
      · exact ⟨fleetWithStatus "fleet-1" "ACTIVATING", "ACTIVATING", rfl, rfl, by decide⟩)
    ⟨fleetWithStatus "fleet-1" "ACTIVE", rfl, rfl⟩ (by decide)

/-- C8: in `resourceAwsGameliftFleetDelete`, after a successful delete request,
when the first `n` polls each return one record in a status of ACTIVE,
DELETING, ERROR, TERMINATED and poll `n + 1` returns no record, Delete returns
nil after exactly `n + 1` polls if they fit before the timeout; if the timeout
allows `n` polls or fewer, so that the fleet was never seen absent, Delete
returns the timeout error instead of nil. -/
theorem delete_returns_nil_at_first_absence (conn : GameLift) (d : ResourceData)
    (clock : Nat → Nat) (n : Nat)
    (hd : conn.DeleteFleet { FleetId := some d.Id } = none)
    (hp : ∀ k, k < n → ∃ f s,
      conn.DescribeFleetAttributes k { FleetIds := [some d.Id] } = .ok [f] ∧
      f.Status = some s ∧
      s ∈ [FleetStatusActive, FleetStatusDeleting, FleetStatusError, FleetStatusTerminated])
    (ha : conn.DescribeFleetAttributes n { FleetIds := [some d.Id] } = .ok []) :
    (n < clock (15 * Minute) →
      resourceAwsGameliftFleetDelete d conn clock = (n + 1, .done none)) ∧
    (clock (15 * Minute) ≤ n →
      resourceAwsGameliftFleetDelete d conn clock =
        (clock (15 * Minute), .done (some (.timeout [])))) := by
  have hcont : ∀ j, j < n → (deleteStateConf conn d).continues (0 + j) := by
    intro j hj
    obtain ⟨f, s, hq, hs, hmem⟩ := hp j hj
    exact delete_continues_of_pending conn d (0 + j) f s (by simpa using hq) hs hmem
  constructor
  · intro ht
    obtain ⟨b, hb⟩ : ∃ b, clock (15 * Minute) = n + (b + 1) :=
      ⟨clock (15 * Minute) - n - 1, by omega⟩
    have hskip := waitLoop_skip (deleteStateConf conn d) n (b + 1) 0 0 hcont
    have hfin := waitLoop_absent (deleteStateConf conn d) b (0 + n) (if n = 0 then 0 else 0) _
      (deleteRefresh_none conn d (0 + n) (by simpa using ha)) rfl rfl rfl
    have hw : (deleteStateConf conn d).WaitForState clock = (n + 1, .done none) := by
      show (deleteStateConf conn d).waitLoop (clock (15 * Minute)) 0 0 = _
      rw [hb, hskip, hfin]; simp
    simp [resourceAwsGameliftFleetDelete, hd, hw]
  · intro ht
    have hskip := waitLoop_skip (deleteStateConf conn d) (clock (15 * Minute)) 0 0 0
      (fun j hj => hcont j (by omega))
    have hw : (deleteStateConf conn d).WaitForState clock =
        (clock (15 * Minute), .done (some (.timeout []))) := by
      show (deleteStateConf conn d).waitLoop (clock (15 * Minute)) 0 0 = _
      have e : clock (15 * Minute) = clock (15 * Minute) + 0 := by omega
      rw [e, hskip]
      simp [StateChangeConf.waitLoop, deleteStateConf]
    simp [resourceAwsGameliftFleetDelete, hd, hw]

/-- Witness of C8: the answers [ACTIVE, ERROR, TERMINATED, no record] make
Delete return nil after exactly 4 polls. -/
theorem delete_returns_nil_at_first_absence_witness :
    resourceAwsGameliftFleetDelete { id := "fleet-1", attrs := [] }
        (service "fleet-1"
          (answerSeq [oneFleet "fleet-1" "ACTIVE", oneFleet "fleet-1" "ERROR",
                      oneFleet "fleet-1" "TERMINATED", .ok []]
            (fun _ => oneFleet "fleet-1" "ACTIVE"))
          (pagedLog [[]]))
        (fun _ => 10) = (4, .done none) :=
  (delete_returns_nil_at_first_absence
    (service "fleet-1"
      (answerSeq [oneFleet "fleet-1" "ACTIVE", oneFleet "fleet-1" "ERROR",
                  oneFleet "fleet-1" "TERMINATED", .ok []]
        (fun _ => oneFleet "fleet-1" "ACTIVE"))
      (pagedLog [[]]))
    { id := "fleet-1", attrs := [] } (fun _ => 10) 3 rfl
    (by
      intro k hk
      interval_cases k
      · exact ⟨fleetWithStatus "fleet-1" "ACTIVE", "ACTIVE", rfl, rfl, by decide⟩
      · exact ⟨fleetWithStatus "fleet-1" "ERROR", "ERROR", rfl, rfl, by decide⟩
      · exact ⟨fleetWithStatus "fleet-1" "TERMINATED", "TERMINATED", rfl, rfl, by decide⟩)
    rfl).1 (by decide)

/-! ## Failure diagnostics -/

theorem isGameliftEventFailure_loop (event : Event) (code : String)
    (h : event.EventCode = some code) (codes : List String) :
    isGameliftEventFailure.loop event codes = .done (decide (code ∈ codes)) := by
  induction codes with
  | nil => simp [isGameliftEventFailure.loop]
  | cons fc rest ih =>
    rw [isGameliftEventFailure.loop, h]
    by_cases hc : code = fc
    · simp [hc]
    · simp [hc, ih]

/-- C9: for an event with a non-nil code, `isGameliftEventFailure` returns true
exactly when the code is one of the 17 allow-listed codes and false exactly
when it is not, comparing whole strings; any other event with the same code
gets the same answer, so no other field is looked at. -/
theorem isGameliftEventFailure_allow_list (event : Event) (code : String)
    (h : event.EventCode = some code) :
    (isGameliftEventFailure event = .done true ↔
      code ∈ [ "FLEET_STATE_ERROR", "FLEET_INITIALIZATION_FAILED",
               "FLEET_BINARY_DOWNLOAD_FAILED", "FLEET_VALIDATION_LAUNCH_PATH_NOT_FOUND",
               "FLEET_VALIDATION_EXECUTABLE_RUNTIME_FAILURE", "FLEET_VALIDATION_TIMED_OUT",
               "FLEET_ACTIVATION_FAILED", "FLEET_ACTIVATION_FAILED_NO_INSTANCES",
               "SERVER_PROCESS_INVALID_PATH", "SERVER_PROCESS_SDK_INITIALIZATION_TIMEOUT",
               "SERVER_PROCESS_PROCESS_READY_TIMEOUT", "SERVER_PROCESS_CRASHED",
               "SERVER_PROCESS_TERMINATED_UNHEALTHY", "SERVER_PROCESS_FORCE_TERMINATED",
               "SERVER_PROCESS_PROCESS_EXIT_TIMEOUT", "GAME_SESSION_ACTIVATION_TIMEOUT",
               "FLEET_VPC_PEERING_FAILED" ]) ∧
    (isGameliftEventFailure event = .done false ↔
      code ∉ [ "FLEET_STATE_ERROR", "FLEET_INITIALIZATION_FAILED",
               "FLEET_BINARY_DOWNLOAD_FAILED", "FLEET_VALIDATION_LAUNCH_PATH_NOT_FOUND",
               "FLEET_VALIDATION_EXECUTABLE_RUNTIME_FAILURE", "FLEET_VALIDATION_TIMED_OUT",
               "FLEET_ACTIVATION_FAILED", "FLEET_ACTIVATION_FAILED_NO_INSTANCES",
               "SERVER_PROCESS_INVALID_PATH", "SERVER_PROCESS_SDK_INITIALIZATION_TIMEOUT",
               "SERVER_PROCESS_PROCESS_READY_TIMEOUT", "SERVER_PROCESS_CRASHED",
               "SERVER_PROCESS_TERMINATED_UNHEALTHY", "SERVER_PROCESS_FORCE_TERMINATED",
               "SERVER_PROCESS_PROCESS_EXIT_TIMEOUT", "GAME_SESSION_ACTIVATION_TIMEOUT",
               "FLEET_VPC_PEERING_FAILED" ]) ∧
    (∀ other : Event, other.EventCode = some code →
      isGameliftEventFailure other = isGameliftEventFailure event) := by
  have key := isGameliftEventFailure_loop event code h failureCodes
  refine ⟨?_, ?_, ?_⟩
  · show isGameliftEventFailure.loop event failureCodes = .done true ↔ code ∈ failureCodes
    rw [key]; simp
  · show isGameliftEventFailure.loop event failureCodes = .done false ↔ code ∉ failureCodes
    rw [key]; simp
  · intro other ho
    show isGameliftEventFailure.loop other failureCodes =
      isGameliftEventFailure.loop event failureCodes
    rw [key, isGameliftEventFailure_loop other code ho failureCodes]

/-- Witness of C9: an event with code SERVER_PROCESS_CRASHED and every other
field set is a failure event. -/
theorem isGameliftEventFailure_allow_list_witness :
    isGameliftEventFailure
      { EventCode := some "SERVER_PROCESS_CRASHED", EventId := some "event-7",
        EventTime := some 1514764800, Message := some "server process crashed",
        PreSignedLogUrl := some "https://logs.example/7", ResourceId := some "fleet-1" } =
      .done true :=
  (isGameliftEventFailure_allow_list
    { EventCode := some "SERVER_PROCESS_CRASHED", EventId := some "event-7",
      EventTime := some 1514764800, Message := some "server process crashed",
      PreSignedLogUrl := some "https://logs.example/7", ResourceId := some "fleet-1" }
    "SERVER_PROCESS_CRASHED" rfl).1.mpr (by decide)

/-- The comparison is exact: another letter case, a proper prefix and a longer
string are not failure codes. -/
theorem isGameliftEventFailure_exact_match :
    isGameliftEventFailure (eventWithCode "fleet_state_error") = .done false ∧
    isGameliftEventFailure (eventWithCode "FLEET_STATE") = .done false ∧
    isGameliftEventFailure (eventWithCode "FLEET_STATE_ERROR ") = .done false ∧
    isGameliftEventFailure (eventWithCode "FLEET_STATE_ERROR") = .done true := by
  refine ⟨?_, ?_, ?_, ?_⟩ <;> decide

theorem getGameliftFleetFailures_events_nil (conn : DescribeFleetEventsApi) (id : String)
    (fuel : Nat) (events : List Event) (err : Option Error)
    (h : (getGameliftFleetFailures conn id fuel).2 = .done (events, err)) : events = [] := by
  unfold getGameliftFleetFailures at h
  simp only at h
  split at h
  · simp only [Run.done.injEq, Prod.mk.injEq] at h
    exact h.1.symm
  · cases h
  · cases h

theorem appendFailures_done (page : List Event) (h : ∀ e ∈ page, e.EventCode ≠ none) :
    ∀ events : List Event, ∃ events1, appendFailures page events = .done events1 := by
  induction page with
  | nil => intro events; exact ⟨events, rfl⟩
  | cons e es ih =>
    intro events
    have he : e.EventCode ≠ none := h e (List.mem_cons_self e es)
    obtain ⟨code, hc⟩ := Option.ne_none_iff_exists'.mp he
    have hrest : ∀ x ∈ es, x.EventCode ≠ none := fun x hx => h x (List.mem_cons_of_mem e hx)
    have hl : isGameliftEventFailure e = .done (decide (code ∈ failureCodes)) :=
      isGameliftEventFailure_loop e code hc failureCodes
    rw [appendFailures, hl]
    cases decide (code ∈ failureCodes)
    · exact ih hrest events
    · exact ih hrest (events ++ [e])

theorem pagedLog_first_of_many (p0 p1 : List Event) (rest : List (List Event)) (id : String) :
    ∃ token, pagedLog (p0 :: p1 :: rest) (firstQuery id) =
      .ok { Events := p0, NextToken := some token } :=
  ⟨toString (0 + 1), by simp [pagedLog, firstQuery]⟩

theorem pagedLog_single (p0 : List Event) (id : String) :
    pagedLog [p0] (firstQuery id) = .ok { Events := p0, NextToken := none } := by
  simp [pagedLog, firstQuery]

/-- On every log of two or more pages the retrieval never returns: whatever
the recursion budget, each query it has issued is the first query. -/
theorem retrieval_diverges_on_many_pages (p0 p1 : List Event) (rest : List (List Event))
    (id : String) (h : ∀ e ∈ p0, e.EventCode ≠ none) :
    ∀ (fuel : Nat) (events : List Event),
      _getGameliftFleetFailures (pagedLog (p0 :: p1 :: rest)) id fuel none events =
        (List.replicate fuel (firstQuery id), .diverge) := by
  obtain ⟨token, hq⟩ := pagedLog_first_of_many p0 p1 rest id
  intro fuel
  induction fuel with
  | zero => intro events; rfl
  | succ fuel ih =>
    intro events
    obtain ⟨events1, ha⟩ := appendFailures_done p0 h events
    have hq2 : pagedLog (p0 :: p1 :: rest) { FleetId := some id, NextToken := none } =
        .ok { Events := p0, NextToken := some token } := hq
    rw [_getGameliftFleetFailures]
    simp only [hq2, ha, Option.isSome_some, if_true, ih events1]
    rfl

/-- On a log of one page the retrieval issues one query and returns nil. -/
theorem retrieval_single_page (p0 : List Event) (id : String)
    (h : ∀ e ∈ p0, e.EventCode ≠ none) (fuel : Nat) :
    _getGameliftFleetFailures (pagedLog [p0]) id (fuel + 1) none [] =
      ([firstQuery id], .done none) := by
  obtain ⟨events1, ha⟩ := appendFailures_done p0 h []
  have hq2 : pagedLog [p0] { FleetId := some id, NextToken := none } =
      .ok { Events := p0, NextToken := none } := pagedLog_single p0 id
  rw [_getGameliftFleetFailures]
  simp only [hq2, ha]
  rfl

/-- C3 at the failing input: on the one-page log whose only event has the code
FLEET_STATE_ERROR, `getGameliftFleetFailures` issues one query and returns the
empty list without error, while the allow-listed events of the log are that
one event. -/
theorem getGameliftFleetFailures_loses_events (fuel : Nat) :
    getGameliftFleetFailures (pagedLog [[eventWithCode "FLEET_STATE_ERROR"]]) "fleet-1"
        (fuel + 1) =
      ([firstQuery "fleet-1"], .done ([], none)) ∧
    failuresOfPages [[eventWithCode "FLEET_STATE_ERROR"]] =
      [eventWithCode "FLEET_STATE_ERROR"] := by
  constructor
  · rfl
  · decide

/-- C4 at the failing input: on the log of two empty pages the retrieval never
returns; whatever the recursion budget, every query it issues is the first
query again, without token, although page 1 returned the token of page 2. -/
theorem getGameliftFleetFailures_refetches_first_page (fuel : Nat) :
    _getGameliftFleetFailures (pagedLog [[], []]) "fleet-1" fuel none [] =
      (List.replicate fuel (firstQuery "fleet-1"), .diverge) ∧
    (pagedLog [[], []] (firstQuery "fleet-1")) =
      .ok { Events := [], NextToken := some "1" } ∧
    (pagedLog [[], []] { FleetId := some "fleet-1", NextToken := some "1" }) =
      .ok { Events := [], NextToken := none } := by
  refine ⟨?_, rfl, rfl⟩
  induction fuel with
  | zero => rfl
  | succ fuel ih =>
    have hq : pagedLog [[], []] { FleetId := some "fleet-1", NextToken := none } =
        .ok { Events := [], NextToken := some "1" } := rfl
    rw [_getGameliftFleetFailures]
    simp only [hq, appendFailures, Option.isSome_some, if_true, ih]
    rfl

/-! ## The create path after a failed wait -/

theorem create_after_failed_wait (d : ResourceData) (conn : GameLift) (clock : Nat → Nat)
    (fuel : Nat) (input : CreateFleetInput) (out : CreateFleetOutput) (fleetId : String)
    (polls : Nat) (waitErr : Error)
    (queries : List DescribeFleetEventsInput) (events : List Event) (err : Option Error)
    (hi : createFleetInput d = .done input)
    (hc : conn.CreateFleet input = .ok out)
    (hid : out.FleetAttributes.bind (fun a => a.FleetId) = some fleetId)
    (hw : (createStateConf conn (d.SetId fleetId)).WaitForState clock =
      (polls, .done (some waitErr)))
    (hg : getGameliftFleetFailures conn.DescribeFleetEvents fleetId fuel =
      (queries, .done (events, err))) :
    (resourceAwsGameliftFleetCreate d conn clock fuel).result = .done err ∧
    (resourceAwsGameliftFleetCreate d conn clock fuel).failureRetrievals = 1 ∧
    (resourceAwsGameliftFleetCreate d conn clock fuel).eventQueries = queries := by
  have hnil : events = [] :=
    getGameliftFleetFailures_events_nil conn.DescribeFleetEvents fleetId fuel events err
      (by rw [hg])
  subst hnil
  have hg2 : getGameliftFleetFailures conn.DescribeFleetEvents (d.SetId fleetId).Id fuel =
      (queries, .done ([], err)) := hg
  unfold resourceAwsGameliftFleetCreate
  simp only [hi, hc, hid, hw, hg2]
  simp

/-- The request built for the planned state of the acceptance test: the three
required attributes, the default protection policy and the launch path. -/
theorem createFleetInput_plannedState :
    createFleetInput plannedState =
      .done { BuildId := some "build-1",
              EC2InstanceType := some "t2.micro",
              Name := some "tf_acc_fleet",
              Description := none,
              EC2InboundPermissions := none,
              LogPaths := none,
              MetricGroups := none,
              NewGameSessionProtectionPolicy := some "NoProtection",
              PeerVpcAwsAccountId := none,
              PeerVpcId := none,
              ResourceCreationLimitPolicy := none,
              RuntimeConfiguration := none,
              ServerLaunchParameters := none,
              ServerLaunchPath := some "C:\\game\\GomokuServer.exe" } := by
  rfl

/-- With the set attribute `metric_groups` configured, the assertion of line
183 on the set value panics while the request is built, before any remote
call. -/
theorem create_panics_on_set_attribute (conn : GameLift) (clock : Nat → Nat) (fuel : Nat) :
    createFleetInput configuredState = .panic ∧
    (resourceAwsGameliftFleetCreate configuredState conn clock fuel).result = .panic ∧
    (resourceAwsGameliftFleetCreate configuredState conn clock fuel).describeCalls = 0 := by
  have h : createFleetInput configuredState = .panic := by rfl
  refine ⟨h, ?_, ?_⟩ <;> simp [resourceAwsGameliftFleetCreate, h]

/-- C1 at the failing input: with the poll answers [NEW, ERROR] the creation
wait fails on the status ERROR after 2 polls, Create makes one failure
retrieval, which succeeds and finds nothing on the one-page log without
events, and Create then returns nil, not an error. -/
theorem create_returns_nil_after_failed_wait :
    (createStateConf
        (service "fleet-1"
          (answerSeq [oneFleet "fleet-1" "NEW", oneFleet "fleet-1" "ERROR"]
            (fun _ => oneFleet "fleet-1" "ERROR"))
          (pagedLog [[]]))
        { id := "fleet-1", attrs := plannedState.attrs }).WaitForState (fun _ => 10) =
      (2, .done (some (.unexpectedState "ERROR" ["ACTIVE"]))) ∧
    (resourceAwsGameliftFleetCreate plannedState
        (service "fleet-1"
          (answerSeq [oneFleet "fleet-1" "NEW", oneFleet "fleet-1" "ERROR"]
            (fun _ => oneFleet "fleet-1" "ERROR"))
          (pagedLog [[]]))
        (fun _ => 10) 5).result = .done none ∧
    (resourceAwsGameliftFleetCreate plannedState
        (service "fleet-1"
          (answerSeq [oneFleet "fleet-1" "NEW", oneFleet "fleet-1" "ERROR"]
            (fun _ => oneFleet "fleet-1" "ERROR"))
          (pagedLog [[]]))
        (fun _ => 10) 5).failureRetrievals = 1 := by
  refine ⟨rfl, rfl, rfl⟩

/-- C2 at the failing input: with the poll answers [NEW, ERROR] the creation
wait fails with the unexpected-state error on ERROR; the failure retrieval
fails with an access-denied error of the events call; Create returns that
access-denied error, which is not the error of the wait. -/
theorem create_returns_retrieval_error :
    (createStateConf
        (service "fleet-1"
          (answerSeq [oneFleet "fleet-1" "NEW", oneFleet "fleet-1" "ERROR"]
            (fun _ => oneFleet "fleet-1" "ERROR"))
          (fun _ => .error (.remote "AccessDeniedException" "not authorized")))
        { id := "fleet-1", attrs := plannedState.attrs }).WaitForState (fun _ => 10) =
      (2, .done (some (.unexpectedState "ERROR" ["ACTIVE"]))) ∧
    (resourceAwsGameliftFleetCreate plannedState
        (service "fleet-1"
          (answerSeq [oneFleet "fleet-1" "NEW", oneFleet "fleet-1" "ERROR"]
            (fun _ => oneFleet "fleet-1" "ERROR"))
          (fun _ => .error (.remote "AccessDeniedException" "not authorized")))
        (fun _ => 10) 5).result =
      .done (some (.remote "AccessDeniedException" "not authorized")) ∧
    Error.remote "AccessDeniedException" "not authorized" ≠
      Error.unexpectedState "ERROR" ["ACTIVE"] := by
  refine ⟨rfl, rfl, by decide⟩

/-! ## Attribute keys of Update and Read -/

theorem updateFleetAttributesInput_panics (d : ResourceData) :
    updateFleetAttributesInput d = .panic := by
  have h : d.Get "fleet_id" = .nil := by
    have hl : fleetSchema.lookup "fleet_id" = none := by decide
    simp [ResourceData.Get, hl]
  unfold updateFleetAttributesInput
  rw [h]
  generalize d.Get "description" = v
  cases v <;> rfl

/-- C10 at the failing input: the state `configuredState` conforms to the
schema, and building the update request on it panics before any request
exists, because the fleet ID is read from the attribute `fleet_id`, which the
schema does not declare; Read writes the attribute `fleet_arn`, which the
schema does not declare either (it declares `arn`). -/
theorem update_reads_undeclared_key :
    configuredState.conforms = true ∧
    updateFleetAttributesInput configuredState = .panic ∧
    (∀ conn : GameLift, (resourceAwsGameliftFleetUpdate configuredState conn).2 = .panic) ∧
    "fleet_id" ∈ updateReads ∧ "fleet_id" ∉ schemaKeys ∧
    (∀ fleet : FleetAttributes, "fleet_arn" ∈ (readWrites fleet).map Prod.fst) ∧
    "fleet_arn" ∉ schemaKeys ∧ "arn" ∈ schemaKeys := by
  refine ⟨by decide, updateFleetAttributesInput_panics _, ?_, by decide, by decide, ?_,
    by decide, by decide⟩
  · intro conn
    simp [resourceAwsGameliftFleetUpdate, updateFleetAttributesInput_panics]
  · intro fleet
    simp [readWrites]

/-! ## Read without a single fleet record -/

/-- C11: in `resourceAwsGameliftFleetRead`, for every resource state: when the
describe call succeeds with zero records, Read sets the ID to the empty string,
returns nil and leaves every attribute as it was; when it returns two or more
records, Read returns the invariant error and leaves the ID and the attributes
unchanged; when the describe call fails, Read returns that very error and
leaves the state untouched. -/
theorem read_without_single_record (d : ResourceData) (conn : GameLift) (k : Nat) :
    (conn.DescribeFleetAttributes k { FleetIds := [some d.Id] } = .ok [] →
      resourceAwsGameliftFleetRead d conn k = ({ id := "", attrs := d.attrs }, .done none)) ∧
    (∀ attributes : List FleetAttributes,
      conn.DescribeFleetAttributes k { FleetIds := [some d.Id] } = .ok attributes →
      2 ≤ attributes.length →
      resourceAwsGameliftFleetRead d conn k =
        (d, .done (some (.expectedOneFleet attributes.length d.Id)))) ∧
    (∀ e : Error,
      conn.DescribeFleetAttributes k { FleetIds := [some d.Id] } = .error e →
      resourceAwsGameliftFleetRead d conn k = (d, .done (some e))) := by
  refine ⟨?_, ?_, ?_⟩
  · intro h
    simp [resourceAwsGameliftFleetRead, h, ResourceData.SetId]
  · intro attributes h hl
    have h1 : ¬ attributes.length < 1 := by omega
    have h2 : attributes.length ≠ 1 := by omega
    simp [resourceAwsGameliftFleetRead, h, h1, h2]
  · intro e h
    simp [resourceAwsGameliftFleetRead, h]

/-- Witness of C11: on the configured state of fleet-1, no record clears the
ID only, two records give the invariant error, and an access-denied error of
the describe call is returned as it is. -/
theorem read_without_single_record_witness :
    resourceAwsGameliftFleetRead configuredState
        (service "fleet-1" (fun _ => .ok []) (pagedLog [[]])) 0 =
      ({ id := "", attrs := configuredState.attrs }, .done none) ∧
    resourceAwsGameliftFleetRead configuredState
        (service "fleet-1"
          (fun _ => .ok [fleetWithStatus "fleet-1" "ACTIVE", fleetWithStatus "fleet-1" "NEW"])
          (pagedLog [[]])) 0 =
      (configuredState, .done (some (.expectedOneFleet 2 "fleet-1"))) ∧
    resourceAwsGameliftFleetRead configuredState
        (service "fleet-1" (fun _ => .error (.remote "AccessDeniedException" "not authorized"))
          (pagedLog [[]])) 0 =
      (configuredState, .done (some (.remote "AccessDeniedException" "not authorized"))) :=
  ⟨(read_without_single_record configuredState
      (service "fleet-1" (fun _ => .ok []) (pagedLog [[]])) 0).1 rfl,
   (read_without_single_record configuredState
      (service "fleet-1"
        (fun _ => .ok [fleetWithStatus "fleet-1" "ACTIVE", fleetWithStatus "fleet-1" "NEW"])
        (pagedLog [[]])) 0).2.1 _ rfl (by decide),
   (read_without_single_record configuredState
      (service "fleet-1" (fun _ => .error (.remote "AccessDeniedException" "not authorized"))
        (pagedLog [[]])) 0).2.2 _ rfl⟩

/-! ## Inbound permissions: expand and flatten -/

theorem ipPermissionFields_map (c : GoValue) (f : Int × String × String × Int)
    (h : ipPermissionFields c = some f) :
    ∃ m, c = .map m ∧
      m.lookup "from_port" = some (.int f.1) ∧
      m.lookup "ip_range" = some (.string f.2.1) ∧
      m.lookup "protocol" = some (.string f.2.2.1) ∧
      m.lookup "to_port" = some (.int f.2.2.2) ∧
      ∀ kv ∈ m, kv.1 ∈ ipPermissionKeys := by
  cases c with
  | map m =>
    refine ⟨m, rfl, ?_⟩
    simp only [ipPermissionFields] at h
    split at h
    · rename_i a r p b h1 h2 h3 h4
      split at h
      · rename_i hall
        simp only [Option.some.injEq] at h
        subst h
        refine ⟨h1, h2, h3, h4, ?_⟩
        intro kv hkv
        have := List.all_eq_true.mp hall kv hkv
        simpa using this
      · cases h
    · cases h
  | nil => simp [ipPermissionFields] at h
  | string _ => simp [ipPermissionFields] at h
  | int _ => simp [ipPermissionFields] at h
  | int64 _ => simp [ipPermissionFields] at h
  | stringPtr _ => simp [ipPermissionFields] at h
  | list _ => simp [ipPermissionFields] at h
  | set _ => simp [ipPermissionFields] at h

theorem expand_item_of_fields (c : GoValue) (f : Int × String × String × Int)
    (h : ipPermissionFields c = some f) :
    expandGameliftIpPermissions.item c = .done (ipPermissionOf f) := by
  obtain ⟨m, rfl, h1, h2, h3, h4, _⟩ := ipPermissionFields_map c f h
  simp [expandGameliftIpPermissions.item, GoValue.assertMap, GoValue.index, h1, h2, h3, h4,
    GoValue.assertInt, GoValue.assertString, ipPermissionOf]

theorem expand_loop_of_fields (cfgs : List GoValue)
    (h : ∀ c ∈ cfgs, (ipPermissionFields c).isSome = true) :
    expandGameliftIpPermissions.loop cfgs =
      .done (cfgs.map (fun c => (ipPermissionFields c).map ipPermissionOf)) := by
  induction cfgs with
  | nil => rfl
  | cons c rest ih =>
    obtain ⟨f, hf⟩ := Option.isSome_iff_exists.mp (h c (List.mem_cons_self c rest))
    have hrest := ih (fun x hx => h x (List.mem_cons_of_mem c hx))
    simp [expandGameliftIpPermissions.loop, expand_item_of_fields c f hf, hrest, hf]

theorem expand_of_fields (cfgs : List GoValue)
    (h : ∀ c ∈ cfgs, (ipPermissionFields c).isSome = true) :
    expandGameliftIpPermissions cfgs =
      .done (cfgs.map (fun c => (ipPermissionFields c).map ipPermissionOf)) := by
  cases cfgs with
  | nil => rfl
  | cons c rest =>
    have hl : ¬ (c :: rest).length < 1 := by simp
    rw [expandGameliftIpPermissions, if_neg hl]
    exact expand_loop_of_fields (c :: rest) h

theorem flatten_of_fields (cfgs : List GoValue)
    (h : ∀ c ∈ cfgs, (ipPermissionFields c).isSome = true) :
    flattenGameliftIpPermissions (cfgs.map (fun c => (ipPermissionFields c).map ipPermissionOf)) =
      .done (cfgs.map (fun c => flatIpPermission ((ipPermissionFields c).getD (0, "", "", 0)))) := by
  induction cfgs with
  | nil => rfl
  | cons c rest ih =>
    obtain ⟨f, hf⟩ := Option.isSome_iff_exists.mp (h c (List.mem_cons_self c rest))
    have hrest := ih (fun x hx => h x (List.mem_cons_of_mem c hx))
    simp [flattenGameliftIpPermissions, hf, hrest, ipPermissionOf, flatIpPermission]

theorem flat_sameMap_of_fields (c : GoValue) (f : Int × String × String × Int)
    (h : ipPermissionFields c = some f) :
    (flatIpPermission f).sameMap c = true := by
  obtain ⟨m, rfl, h1, h2, h3, h4, hk⟩ := ipPermissionFields_map c f h
  simp only [flatIpPermission, GoValue.sameMap, List.all_eq_true]
  intro key hkey
  have hmem : key ∈ ipPermissionKeys := by
    rcases List.mem_append.mp hkey with hl | hr
    · simpa [ipPermissionKeys] using hl
    · obtain ⟨kv, hkv, rfl⟩ := List.mem_map.mp hr
      exact hk kv hkv
  simp only [ipPermissionKeys, List.mem_cons, List.mem_singleton, List.not_mem_nil,
    or_false] at hmem
  rcases hmem with rfl | rfl | rfl | rfl
  · simp [List.lookup, h1, GoValue.sameScalar]
  · simp [List.lookup, h2, GoValue.sameScalar]
  · simp [List.lookup, h3, GoValue.sameScalar]
  · simp [List.lookup, h4, GoValue.sameScalar]

/-- C12: for every list `cfgs` of well-formed inbound-permission
configurations (maps with an integer `from_port` and `to_port` and a string
`ip_range` and `protocol`), `expandGameliftIpPermissions` returns a list of the
same length whose element `i` is the record with exactly the four fields of
`cfgs[i]`, and flattening that list returns a list that equals `cfgs` element
by element in the same order, as maps with integers compared by value. -/
theorem ipPermissions_round_trip (cfgs : List GoValue)
    (h : ∀ c ∈ cfgs, (ipPermissionFields c).isSome = true) :
    expandGameliftIpPermissions cfgs =
      .done (cfgs.map (fun c => (ipPermissionFields c).map ipPermissionOf)) ∧
    (cfgs.map (fun c => (ipPermissionFields c).map ipPermissionOf)).length = cfgs.length ∧
    ∃ out, ipPermissionsRoundTrip cfgs = .done out ∧
      List.Forall₂ (fun o c => o.sameMap c = true) out cfgs := by
  refine ⟨expand_of_fields cfgs h, by simp, ?_⟩
  refine ⟨cfgs.map (fun c => flatIpPermission ((ipPermissionFields c).getD (0, "", "", 0))),
    ?_, ?_⟩
  · rw [ipPermissionsRoundTrip, expand_of_fields cfgs h]
    exact flatten_of_fields cfgs h
  · rw [List.forall₂_map_left_iff, List.forall₂_same]
    intro c hc
    obtain ⟨f, hf⟩ := Option.isSome_iff_exists.mp (h c hc)
    rw [hf]
    exact flat_sameMap_of_fields c f hf

/-- Witness of C12: an SSH rule whose keys come in another order and a UDP port
range expand to two records and flatten back to the same two configurations. -/
theorem ipPermissions_round_trip_witness :
    expandGameliftIpPermissions [sshPermission, gamePermission] =
      .done [ some { FromPort := some 22, IpRange := some "0.0.0.0/0",
                     Protocol := some "TCP", ToPort := some 22 },
              some { FromPort := some 33435, IpRange := some "10.0.0.0/8",
                     Protocol := some "UDP", ToPort := some 33535 } ] ∧
    ([sshPermission, gamePermission].map
      (fun c => (ipPermissionFields c).map ipPermissionOf)).length = 2 ∧
    ∃ out, ipPermissionsRoundTrip [sshPermission, gamePermission] = .done out ∧
      List.Forall₂ (fun o c => o.sameMap c = true) out [sshPermission, gamePermission] :=
  ipPermissions_round_trip [sshPermission, gamePermission]
    (by
      intro c hc
      simp only [List.mem_cons, List.mem_singleton, List.not_mem_nil, or_false] at hc
      rcases hc with rfl | rfl <;> rfl)

/-- The round trip changes the dynamic type of the ports: a configuration
holds them as `int`, the flattened map as `int64`, so the two maps agree by
value only. -/
theorem ipPermissions_round_trip_int64 :
    ipPermissionsRoundTrip [gamePermission] =
      .done [.map [("from_port", .int64 33435), ("ip_range", .string "10.0.0.0/8"),
                   ("protocol", .string "UDP"), ("to_port", .int64 33535)]] := by
  rfl

end GameliftFleet
